import Mathlib

/-!
Shallow embedding of the Walver JavaScript SDK client (`src/client.ts`) and
verification of the specification's claims about it.

The SDK is a single class wrapping an HTTP client.  The interesting logic is
`createVerification`: destructuring of an options object with defaults,
normalisation of the `expiration` field, assembly of the outgoing payload,
a fixed sequence of validation checks (throwing `Error`s with specific
messages), stripping of `undefined` values from the payload, and translation
of an HTTP 409 response into a fixed duplicate-id error.

JavaScript semantics that matter here and how they are modelled:
  * optional fields of the options object are `Option` values
    (`none` = property absent / `undefined`);
  * JavaScript truthiness of a possibly-undefined string (`!folder_id`)
    is `truthyOptStr`: `undefined` and the empty string are falsy;
  * truthiness of a possibly-undefined number is `truthyOptNum`:
    `undefined` and `0` are falsy;
  * the payload is an ordered association list of keys to `JValue`s, where
    `JValue.undef` stands for the JavaScript value `undefined`; the
    "remove undefined values" loop is a filter on that list;
  * a native `Date` is abstracted by its ISO-8601 rendering: the runtime's
    `Date.prototype.toISOString` lives outside this repository, so a date is
    represented by the string that call would return.
-/

set_option autoImplicit false

/-- A custom field descriptor: a required `type` discriminator plus arbitrary
further attributes (modelled as an open key/value list, which the client never
inspects). -/
structure CustomField where
  type : String
  attrs : List (String × String) := []
  deriving DecidableEq, Repr

/-- A native JavaScript `Date`, abstracted by the ISO-8601 string its
`toISOString()` method returns (the method itself is part of the JS runtime,
not of this repository). -/
structure JSDate where
  iso : String
  deriving DecidableEq, Repr

/-- `Date.prototype.toISOString` as seen through the abstraction above. -/
def JSDate.toISOString (d : JSDate) : String := d.iso

/-- The `expiration` option: `string | Date` in the TypeScript source. -/
inductive ExpirationValue where
  | str (s : String)
  | date (d : JSDate)
  deriving DecidableEq, Repr

/-- The `VerificationOptions` interface of `client.ts`.  `none` models an
absent (or `undefined`) property. -/
structure VerificationOptions where
  id : String
  service_name : String
  chain : String
  internal_id : Option String := none
  webhook : Option String := none
  expiration : Option ExpirationValue := none
  secret : Option String := none
  redirect_url : Option String := none
  one_time : Option Bool := none
  folder_id : Option String := none
  custom_fields : Option (List CustomField) := none
  token_gate : Option Bool := none
  token_address : Option String := none
  token_amount : Option Int := none
  is_nft : Option Bool := none
  force_email_verification : Option Bool := none
  force_telegram_verification : Option Bool := none
  force_twitter_verification : Option Bool := none
  force_telephone_verification : Option Bool := none
  force_discord_verification : Option Bool := none
  deriving DecidableEq, Repr

/-- JavaScript's `String.prototype.startsWith`, on the character sequences of
the two strings (kernel-reducible, unlike the byte-indexed core function). -/
def jsStartsWith (s pre : String) : Bool :=
  pre.data.isPrefixOf s.data

/-- JavaScript truthiness of a `string | undefined` value: `undefined` and
`""` are falsy, every other string is truthy. -/
def truthyOptStr : Option String → Bool
  | none => false
  | some s => s != ""

/-- JavaScript truthiness of a `number | undefined` value: `undefined` and
`0` are falsy (`NaN`, which is also falsy, is outside the integer model). -/
def truthyOptNum : Option Int → Bool
  | none => false
  | some n => n != 0

/-- A JSON-ish value as it appears in the `data` record of
`createVerification`; `undef` is JavaScript's `undefined`. -/
inductive JValue where
  | undef
  | str (s : String)
  | num (n : Int)
  | bool (b : Bool)
  | fields (fs : List CustomField)
  deriving DecidableEq, Repr

/-- Coerce a possibly-absent string option into the `data` record. -/
def optStr : Option String → JValue
  | none => .undef
  | some s => .str s

/-- Coerce a possibly-absent number option into the `data` record. -/
def optNum : Option Int → JValue
  | none => .undef
  | some n => .num n

/-- Lines 135-138 of `client.ts`: `expiration` is converted with
`toISOString()` when it is a `Date` instance and passed through otherwise. -/
def formatExpiration : Option ExpirationValue → JValue
  | none => .undef
  | some (.str s) => .str s
  | some (.date d) => .str d.toISOString

/-- Lines 140-161 of `client.ts`: the `data` record, in source order, before
undefined values are removed.  Destructuring defaults (`one_time = false`,
`custom_fields = []`, `token_gate = false`, `is_nft = false`, the five
`force_*_verification = false`) are applied here, exactly as the
destructuring on lines 112-133 does. -/
def buildData (o : VerificationOptions) : List (String × JValue) :=
  [("id", .str o.id),
   ("service_name", .str o.service_name),
   ("chain", .str o.chain),
   ("internal_id", optStr o.internal_id),
   ("webhook", optStr o.webhook),
   ("expiration", formatExpiration o.expiration),
   ("secret", optStr o.secret),
   ("redirect_url", optStr o.redirect_url),
   ("one_time", .bool (o.one_time.getD false)),
   ("folder_id", optStr o.folder_id),
   ("custom_fields", .fields (o.custom_fields.getD [])),
   ("token_gate", .bool (o.token_gate.getD false)),
   ("token_address", optStr o.token_address),
   ("token_amount", optNum o.token_amount),
   ("is_nft", .bool (o.is_nft.getD false)),
   ("force_email_verification", .bool (o.force_email_verification.getD false)),
   ("force_telegram_verification", .bool (o.force_telegram_verification.getD false)),
   ("force_twitter_verification", .bool (o.force_twitter_verification.getD false)),
   ("force_telephone_verification", .bool (o.force_telephone_verification.getD false)),
   ("force_discord_verification", .bool (o.force_discord_verification.getD false))]

/-- Lines 230-235 of `client.ts`: `Object.keys(data).forEach(... delete ...)`
removes exactly the keys whose value is `undefined`. -/
def stripUndefined (data : List (String × JValue)) : List (String × JValue) :=
  data.filter fun kv => kv.2 != JValue.undef

/-- The payload actually transmitted by the POST to `/new`. -/
def payload (o : VerificationOptions) : List (String × JValue) :=
  stripUndefined (buildData o)

/-- The message thrown on line 164 of `client.ts`. -/
def presenceMsg : String := "If no folder_id is provided, webhook is required"

/-- The warning printed on line 169 of `client.ts`. -/
def secretWarnMsg : String := "Warning: secret is highly recommended when using webhooks"

/-- The message thrown on line 173 of `client.ts`. -/
def schemeMsg : String := "webhook must start with https://"

/-- The message thrown on line 178 of `client.ts`. -/
def tokenAddressMsg : String := "token_address is required when using token gate"

/-- The message thrown on line 181 of `client.ts`. -/
def tokenAmountMsg : String := "token_amount is required when using token gate"

/-- The message thrown by the `force_<channel>_verification` checks on
lines 185-228 of `client.ts` (the same message for both sub-checks of a
channel). -/
def channelMsg (channel : String) : String :=
  "custom_fields[" ++ channel ++ "] is required when using force_" ++ channel ++ "_verification"

/-- Lines 163-228 of `client.ts`: the validation sequence of
`createVerification`, run after destructuring and payload assembly.  Returns
the list of `console.warn` messages emitted (in order) together with the
message of the first `Error` thrown, or `none` when every check passes.
The nesting of the source (`if (token_gate) { if (!token_address) ...`},
and the two-`if` shape of each channel check) is flattened into an
equivalent `else if` chain, preserving evaluation order exactly. -/
def validateVerification (o : VerificationOptions) : List String × Option String :=
  let custom_fields := o.custom_fields.getD []
  let token_gate := o.token_gate.getD false
  let fEmail := o.force_email_verification.getD false
  let fTelegram := o.force_telegram_verification.getD false
  let fTwitter := o.force_twitter_verification.getD false
  let fTelephone := o.force_telephone_verification.getD false
  let fDiscord := o.force_discord_verification.getD false
  if !truthyOptStr o.folder_id && !truthyOptStr o.webhook then
    ([], some presenceMsg)
  else
    let warns := if truthyOptStr o.webhook && !truthyOptStr o.secret then [secretWarnMsg] else []
    if truthyOptStr o.webhook && !(jsStartsWith (o.webhook.getD "") "https://") then
      (warns, some schemeMsg)
    else if token_gate && !truthyOptStr o.token_address then
      (warns, some tokenAddressMsg)
    else if token_gate && !truthyOptNum o.token_amount then
      (warns, some tokenAmountMsg)
    else if fEmail && custom_fields.isEmpty then
      (warns, some (channelMsg "email"))
    else if fEmail && !(custom_fields.any fun f => f.type == "email") then
      (warns, some (channelMsg "email"))
    else if fTelegram && custom_fields.isEmpty then
      (warns, some (channelMsg "telegram"))
    else if fTelegram && !(custom_fields.any fun f => f.type == "telegram") then
      (warns, some (channelMsg "telegram"))
    else if fTwitter && custom_fields.isEmpty then
      (warns, some (channelMsg "twitter"))
    else if fTwitter && !(custom_fields.any fun f => f.type == "twitter") then
      (warns, some (channelMsg "twitter"))
    else if fTelephone && custom_fields.isEmpty then
      (warns, some (channelMsg "telephone"))
    else if fTelephone && !(custom_fields.any fun f => f.type == "telephone") then
      (warns, some (channelMsg "telephone"))
    else if fDiscord && custom_fields.isEmpty then
      (warns, some (channelMsg "discord"))
    else if fDiscord && !(custom_fields.any fun f => f.type == "discord") then
      (warns, some (channelMsg "discord"))
    else
      (warns, none)

/-- An error thrown by the underlying HTTP transport (axios): either an error
carrying a response with a status code, or one without a response (network
failure, timeout). -/
inductive JsError where
  | withResponse (status : Nat) (payload : String)
  | noResponse (msg : String)
  deriving DecidableEq, Repr

/-- Outcome of the POST to `/new` as seen by the `try` block on line 238. -/
inductive PostOutcome where
  | ok (body : String)
  | err (e : JsError)
  deriving DecidableEq, Repr

/-- Observable outcome of a `createVerification` call.  The constructor
records which `throw` site fired: a validation `Error` (thrown before any
network traffic), the fixed duplicate-id `Error` built in the 409 handler on
line 241, the original transport error re-raised unchanged on line 243, or
a successful response body. -/
inductive CVOutcome where
  | validationError (msg : String)
  | duplicateIdError (msg : String)
  | rethrown (e : JsError)
  | success (body : String)
  deriving DecidableEq, Repr

/-- The message of the duplicate-id error on line 241 of `client.ts`. -/
def duplicateIdMsg : String := "ID for the verification already exists. Choose another ID."

/-- `createVerification` (lines 111-245 of `client.ts`), with the network
abstracted: `net` is the outcome the POST to `/new` would have.  When
validation throws, the result does not depend on `net` at all — no request
is issued. -/
def createVerification (o : VerificationOptions) (net : PostOutcome) : CVOutcome :=
  match (validateVerification o).2 with
  | some msg => .validationError msg
  | none =>
    match net with
    | .ok body => .success body
    | .err e =>
      match e with
      | .withResponse status _ =>
        if status == 409 then .duplicateIdError duplicateIdMsg else .rethrown e
      | .noResponse _ => .rethrown e

/-- The constructor message thrown on line 43 of `client.ts`. -/
def apiKeyMsg : String :=
  "API key is required. Either pass it as an argument or set the WALVER_API_KEY environment variable in .env file"

/-- Lines 39-45 of `client.ts`: resolution of the API key in the `Walver`
constructor.  `apiKey` is the constructor argument, `envKey` the value of
`process.env.WALVER_API_KEY`; the fallback fires on JavaScript falsiness
(`undefined` or `""`). -/
def resolveApiKey (apiKey : Option String) (envKey : Option String) : Except String String :=
  if !truthyOptStr apiKey then
    if !truthyOptStr envKey then
      .error apiKeyMsg
    else
      .ok (envKey.getD "")
  else
    .ok (apiKey.getD "")

/-- The folder/webhook presence check (line 163) in isolation. -/
def presenceCheck (o : VerificationOptions) : Option String :=
  if !truthyOptStr o.folder_id && !truthyOptStr o.webhook then some presenceMsg else none

/-- The condition of the non-fatal missing-secret warning (line 168). -/
def secretWarningFires (o : VerificationOptions) : Bool :=
  truthyOptStr o.webhook && !truthyOptStr o.secret

/-- The webhook scheme check (line 172) in isolation. -/
def schemeCheck (o : VerificationOptions) : Option String :=
  if truthyOptStr o.webhook && !(jsStartsWith (o.webhook.getD "") "https://") then
    some schemeMsg
  else none

/-- The token-gate completeness check (lines 176-183) in isolation. -/
def tokenGateCheck (o : VerificationOptions) : Option String :=
  if o.token_gate.getD false && !truthyOptStr o.token_address then some tokenAddressMsg
  else if o.token_gate.getD false && !truthyOptNum o.token_amount then some tokenAmountMsg
  else none

/-- One `force_<channel>_verification` check (lines 185-228) in isolation.
It depends only on the channel's flag and on `custom_fields`, which is what
makes the five checks independent of each other. -/
def forceChannelCheck (flag : Bool) (cfs : List CustomField) (channel : String) : Option String :=
  if flag && cfs.isEmpty then some (channelMsg channel)
  else if flag && !(cfs.any fun f => f.type == channel) then some (channelMsg channel)
  else none

/-- The `force_<channel>_verification` flag for a channel name, with the
destructuring default `false`. -/
def forceFlag (o : VerificationOptions) : String → Bool
  | "email" => o.force_email_verification.getD false
  | "telegram" => o.force_telegram_verification.getD false
  | "twitter" => o.force_twitter_verification.getD false
  | "telephone" => o.force_telephone_verification.getD false
  | "discord" => o.force_discord_verification.getD false
  | _ => false

/-- The five force-verification channels, in the order the code checks them. -/
def channels : List String := ["email", "telegram", "twitter", "telephone", "discord"]

/-- The fatal checks of `createVerification` in the order the source runs
them: presence, webhook scheme, token gate, then the five channel checks. -/
def checksInOrder (o : VerificationOptions) : List (Option String) :=
  [presenceCheck o, schemeCheck o, tokenGateCheck o] ++
    channels.map fun ch => forceChannelCheck (forceFlag o ch) (o.custom_fields.getD []) ch

/-- First error of a short-circuiting check sequence. -/
def firstErr {α : Type} : List (Option α) → Option α
  | [] => none
  | some m :: _ => some m
  | none :: rest => firstErr rest

/-- The warnings `createVerification` emits: the missing-secret warning fires
exactly when the presence check passed, the webhook is truthy and the secret
is falsy — the warning precedes the scheme check in the source, so it fires
even when the scheme (or any later) check throws. -/
def emittedWarnings (o : VerificationOptions) : List String :=
  if (presenceCheck o).isNone && secretWarningFires o then [secretWarnMsg] else []

/-- The evaluation order asserted by the claim (and §4.1 step 4 of the spec),
written from the spec's words for comparison with the code: folder/webhook
presence, then webhook scheme, then the non-fatal missing-secret warning,
then token gate, then the five channel checks, short-circuiting at the first
failed check (so no warning is emitted once the scheme check has thrown). -/
def claimOrderValidate (o : VerificationOptions) : List String × Option String :=
  match presenceCheck o with
  | some m => ([], some m)
  | none =>
    match schemeCheck o with
    | some m => ([], some m)
    | none =>
      let warns := if secretWarningFires o then [secretWarnMsg] else []
      (warns,
        firstErr (tokenGateCheck o ::
          channels.map fun ch => forceChannelCheck (forceFlag o ch) (o.custom_fields.getD []) ch))

/-- Abstract shape of the validation sequence: a short-circuiting `else if`
cascade, whose non-first branches carry an interleaved warning value, equals
the pair of that warning value (emitted whenever the first check passed) and
the first failing entry of the corresponding check list.  The Booleans are
the atomic check conditions; the messages are opaque. -/
theorem validateChainAux {α β : Type} (wE wN : α)
    (mp msch mta mtm me mg mt mh md : β)
    (p wc s ta tm ce1 ce2 cg1 cg2 ct1 ct2 ch1 ch2 cd1 cd2 : Bool) :
    (if p then (wN, some mp)
     else if s then ((if wc then wE else wN), some msch)
     else if ta then ((if wc then wE else wN), some mta)
     else if tm then ((if wc then wE else wN), some mtm)
     else if ce1 then ((if wc then wE else wN), some me)
     else if ce2 then ((if wc then wE else wN), some me)
     else if cg1 then ((if wc then wE else wN), some mg)
     else if cg2 then ((if wc then wE else wN), some mg)
     else if ct1 then ((if wc then wE else wN), some mt)
     else if ct2 then ((if wc then wE else wN), some mt)
     else if ch1 then ((if wc then wE else wN), some mh)
     else if ch2 then ((if wc then wE else wN), some mh)
     else if cd1 then ((if wc then wE else wN), some md)
     else if cd2 then ((if wc then wE else wN), some md)
     else ((if wc then wE else wN), none)) =
    ((if (if p then some mp else none).isNone && wc then wE else wN),
      firstErr [if p then some mp else none,
        if s then some msch else none,
        if ta then some mta else if tm then some mtm else none,
        if ce1 then some me else if ce2 then some me else none,
        if cg1 then some mg else if cg2 then some mg else none,
        if ct1 then some mt else if ct2 then some mt else none,
        if ch1 then some mh else if ch2 then some mh else none,
        if cd1 then some md else if cd2 then some md else none]) := by
  cases p <;> simp [firstErr]
  cases s <;> simp [firstErr]
  cases ta <;> simp [firstErr]
  cases tm <;> simp [firstErr]
  cases ce1 <;> simp [firstErr]
  cases ce2 <;> simp [firstErr]
  cases cg1 <;> simp [firstErr]
  cases cg2 <;> simp [firstErr]
  cases ct1 <;> simp [firstErr]
  cases ct2 <;> simp [firstErr]
  cases ch1 <;> simp [firstErr]
  cases ch2 <;> simp [firstErr]
  cases cd1 <;> simp [firstErr]
  cases cd2 <;> simp [firstErr]

/-- The code's validation sequence equals: emit the warning exactly when the
presence check passed and the warning condition holds, and throw the first
failing check of `checksInOrder` (presence, scheme, token gate, then the
five channels).  Shared backbone for the order-sensitive claims. -/
theorem validate_eq_checkList (o : VerificationOptions) :
    validateVerification o = (emittedWarnings o, firstErr (checksInOrder o)) := by
  simp only [validateVerification, checksInOrder, emittedWarnings, presenceCheck, schemeCheck,
    tokenGateCheck, forceChannelCheck, forceFlag, secretWarningFires, channels, List.map,
    List.cons_append, List.nil_append]
  exact validateChainAux [secretWarnMsg] [] presenceMsg schemeMsg tokenAddressMsg tokenAmountMsg
    (channelMsg "email") (channelMsg "telegram") (channelMsg "twitter") (channelMsg "telephone")
    (channelMsg "discord") _ _ _ _ _ _ _ _ _ _ _ _ _ _ _

/-- The thrown message of the validation sequence is the first failing check. -/
theorem validate_snd_eq_firstErr (o : VerificationOptions) :
    (validateVerification o).2 = firstErr (checksInOrder o) := by
  rw [validate_eq_checkList]

/-- A check sequence has no failing entry iff every check passes. -/
theorem firstErr_eq_none_iff {α : Type} (l : List (Option α)) :
    firstErr l = none ↔ ∀ x ∈ l, x = none := by
  induction l with
  | nil => simp [firstErr]
  | cons hd tl ih =>
    cases hd with
    | none => simp [firstErr, ih]
    | some m => simp [firstErr]

/-- When validation throws, the thrown message is independent of the network:
`createVerification` returns the validation error whatever the POST would
have answered. -/
theorem createVerification_of_validate_some {o : VerificationOptions} {m : String}
    (h : (validateVerification o).2 = some m) (net : PostOutcome) :
    createVerification o net = .validationError m := by
  simp [createVerification, h]

/-- Claim C1, counterexample to the claim as stated: on an options object
violating the scheme, token-gate and email rules at once and lacking a
secret, the code does not behave as the claimed order (presence → scheme →
warning → token gate → channels) predicts.  The claimed order, short-
circuiting at the failed scheme check, would emit no warning; the code emits
the missing-secret warning before throwing the scheme error. -/
theorem c1_claimed_order_counterexample :
    validateVerification
        { id := "v1", service_name := "svc", chain := "ETH",
          webhook := some "http://hook.example", token_gate := some true,
          force_email_verification := some true } ≠
      claimOrderValidate
        { id := "v1", service_name := "svc", chain := "ETH",
          webhook := some "http://hook.example", token_gate := some true,
          force_email_verification := some true } := by decide

/-- Claim C1 (amended): `createVerification` runs its structural checks in
the fixed left-to-right short-circuit order folder/webhook presence →
non-fatal missing-secret warning → webhook https scheme → token-gate
completeness → the five force-channel custom-field checks.  For every
options object the error raised is the first failing rule in that order
(and it is raised before any network call), and the warning is emitted iff
the presence check passed and a truthy webhook comes without a truthy
secret — even when a later check throws. -/
theorem c1_check_order (o : VerificationOptions) (net : PostOutcome) :
    validateVerification o = (emittedWarnings o, firstErr (checksInOrder o)) ∧
    (∀ m, firstErr (checksInOrder o) = some m →
      createVerification o net = .validationError m) := by
  refine ⟨validate_eq_checkList o, fun m hm => ?_⟩
  exact createVerification_of_validate_some ((validate_snd_eq_firstErr o).trans hm) net

/-- Claim C1 witness: the order theorem applied to a concrete options object
whose first failing check is the presence check. -/
theorem c1_check_order_witness :
    createVerification { id := "w1", service_name := "svc", chain := "ETH" } (.ok "r") =
      CVOutcome.validationError presenceMsg :=
  (c1_check_order { id := "w1", service_name := "svc", chain := "ETH" } (.ok "r")).2
    presenceMsg (by decide)

/-- Claim C2, counterexample to the claim as stated: the options object
supplies `folder_id` (the key is set, with value `""`), yet
`createVerification` raises the presence ValidationError instead of passing
the presence check. -/
theorem c2_presence_counterexample :
    ({ id := "v2", service_name := "svc", chain := "ETH",
        folder_id := some "" } : VerificationOptions).folder_id.isSome = true ∧
    createVerification
        { id := "v2", service_name := "svc", chain := "ETH", folder_id := some "" }
        (.ok "created") = .validationError presenceMsg := by
  exact ⟨rfl, by decide⟩

/-- Claim C2 (amended): when neither `folder_id` nor `webhook` is set to a
non-empty string (both are JS-falsy), `createVerification` raises the
presence ValidationError whatever the network would answer — no request is
issued; when at least one of the two is set to a non-empty string, the
presence check passes. -/
theorem c2_presence_check (o : VerificationOptions) (net : PostOutcome) :
    (truthyOptStr o.folder_id = false → truthyOptStr o.webhook = false →
      createVerification o net = .validationError presenceMsg) ∧
    ((truthyOptStr o.folder_id || truthyOptStr o.webhook) = true →
      presenceCheck o = none) := by
  constructor
  · intro hf hw
    have hv : (validateVerification o).2 = some presenceMsg := by
      simp [validateVerification, hf, hw]
    exact createVerification_of_validate_some hv net
  · intro h
    cases htf : truthyOptStr o.folder_id <;>
      cases htw : truthyOptStr o.webhook <;>
        simp_all [presenceCheck]

/-- Claim C2 witness: both directions of the presence-check theorem at
concrete inputs — one with neither field truthy, one with a webhook. -/
theorem c2_presence_check_witness :
    createVerification { id := "w2", service_name := "svc", chain := "ETH" } (.ok "r") =
      CVOutcome.validationError presenceMsg ∧
    presenceCheck { id := "w2b", service_name := "svc", chain := "ETH",
                    webhook := some "https://hook.example" } = none :=
  ⟨(c2_presence_check { id := "w2", service_name := "svc", chain := "ETH" } (.ok "r")).1
      (by decide) (by decide),
   (c2_presence_check { id := "w2b", service_name := "svc", chain := "ETH",
                        webhook := some "https://hook.example" } (.ok "r")).2 (by decide)⟩

/-- Claim C3, counterexample to the claim as stated: the webhook value `""`
does not start with `https://`, yet `createVerification` raises no error at
all (the empty string is JS-falsy, so the scheme check is skipped, and the
supplied `folder_id` satisfies the presence check) — the call goes through
to the network and succeeds. -/
theorem c3_scheme_counterexample :
    ({ id := "v3", service_name := "svc", chain := "ETH", folder_id := some "f",
        webhook := some "" } : VerificationOptions).webhook = some "" ∧
    jsStartsWith "" "https://" = false ∧
    createVerification
        { id := "v3", service_name := "svc", chain := "ETH", folder_id := some "f",
          webhook := some "" } (.ok "created") = .success "created" := by
  exact ⟨rfl, by decide, by decide⟩

/-- Claim C3 (amended): for every options object with a non-empty webhook
value that does not start with `https://`, `createVerification` raises the
scheme ValidationError before any network call (the result is independent of
the network outcome); a webhook starting with `https://` passes the scheme
check. -/
theorem c3_webhook_scheme (o : VerificationOptions) (net : PostOutcome) (w : String)
    (hw : o.webhook = some w) :
    (w ≠ "" → jsStartsWith w "https://" = false →
      createVerification o net = .validationError schemeMsg) ∧
    (jsStartsWith w "https://" = true → schemeCheck o = none) := by
  constructor
  · intro hne hstart
    have htw : truthyOptStr (some w) = true := by
      simp [truthyOptStr, hne]
    have hv : (validateVerification o).2 = some schemeMsg := by
      simp [validateVerification, hw, htw, hstart]
    exact createVerification_of_validate_some hv net
  · intro hstart
    simp [schemeCheck, hw, hstart]

/-- Claim C3 witness: the scheme theorem at concrete inputs — an http
webhook is rejected with the scheme message, an https webhook passes the
scheme check. -/
theorem c3_webhook_scheme_witness :
    createVerification
        { id := "w3", service_name := "svc", chain := "ETH",
          webhook := some "http://hook.example" } (.ok "r") =
      CVOutcome.validationError schemeMsg ∧
    schemeCheck { id := "w3b", service_name := "svc", chain := "ETH",
                  webhook := some "https://hook.example" } = none :=
  ⟨(c3_webhook_scheme { id := "w3", service_name := "svc", chain := "ETH",
                        webhook := some "http://hook.example" } (.ok "r")
      "http://hook.example" rfl).1 (by decide) (by decide),
   (c3_webhook_scheme { id := "w3b", service_name := "svc", chain := "ETH",
                        webhook := some "https://hook.example" } (.ok "r")
      "https://hook.example" rfl).2 (by decide)⟩

/-- Claim C4: with `token_gate` set to `true`, `createVerification` raises a
ValidationError whenever `token_address` is missing or empty or
`token_amount` is missing or zero (whatever the network would answer — no
request is issued), and the token-gate check passes when `token_address` is
non-empty and `token_amount` non-zero. -/
theorem c4_token_gate (o : VerificationOptions) (net : PostOutcome)
    (htg : o.token_gate = some true) :
    ((truthyOptStr o.token_address = false ∨ truthyOptNum o.token_amount = false) →
      ∃ m, createVerification o net = .validationError m) ∧
    (truthyOptStr o.token_address = true → truthyOptNum o.token_amount = true →
      tokenGateCheck o = none) := by
  constructor
  · intro hfail
    have hcheck : ∃ m, tokenGateCheck o = some m := by
      rcases hfail with ha | hm
      · exact ⟨tokenAddressMsg, by simp [tokenGateCheck, htg, ha]⟩
      · cases haddr : truthyOptStr o.token_address
        · exact ⟨tokenAddressMsg, by simp [tokenGateCheck, htg, haddr]⟩
        · exact ⟨tokenAmountMsg, by simp [tokenGateCheck, htg, haddr, hm]⟩
    cases hv : (validateVerification o).2 with
    | some msg => exact ⟨msg, createVerification_of_validate_some hv net⟩
    | none =>
      exfalso
      rw [validate_snd_eq_firstErr, firstErr_eq_none_iff] at hv
      obtain ⟨m, hm2⟩ := hcheck
      have hmem : tokenGateCheck o ∈ checksInOrder o := by simp [checksInOrder]
      have h0 := hv _ hmem
      rw [hm2] at h0
      cases h0
  · intro ha hm
    simp [tokenGateCheck, htg, ha, hm]

/-- Claim C4 witness: a token-gated request without a token address is
rejected; one with address and non-zero amount passes the token-gate
check. -/
theorem c4_token_gate_witness :
    (∃ m, createVerification
        { id := "w4", service_name := "svc", chain := "ETH", folder_id := some "f",
          token_gate := some true } (.ok "r") = CVOutcome.validationError m) ∧
    tokenGateCheck
        { id := "w4b", service_name := "svc", chain := "ETH", folder_id := some "f",
          token_gate := some true, token_address := some "So11111",
          token_amount := some 5 } = none :=
  ⟨(c4_token_gate
      { id := "w4", service_name := "svc", chain := "ETH",
        folder_id := some "f", token_gate := some true } (.ok "r") rfl).1
      (Or.inl (by decide)),
   (c4_token_gate
      { id := "w4b", service_name := "svc", chain := "ETH",
        folder_id := some "f", token_gate := some true, token_address := some "So11111",
        token_amount := some 5 } (.ok "r") rfl).2 (by decide) (by decide)⟩

/-- Claim C5: for each of the five channels, with that channel's
`force_<channel>_verification` flag true, `createVerification` raises a
ValidationError when `custom_fields` is empty or contains no element whose
`type` equals the channel name, and the channel's check — which depends only
on that channel's flag and on `custom_fields`, making the five checks
independent — passes when a matching element exists. -/
theorem c5_force_channels (o : VerificationOptions) (net : PostOutcome) (ch : String)
    (hch : ch ∈ channels) (hflag : forceFlag o ch = true) :
    (((o.custom_fields.getD []).isEmpty = true ∨
        ((o.custom_fields.getD []).any fun f => f.type == ch) = false) →
      ∃ m, createVerification o net = .validationError m) ∧
    ((((o.custom_fields.getD []).any fun f => f.type == ch) = true) →
      forceChannelCheck (forceFlag o ch) (o.custom_fields.getD []) ch = none) := by
  constructor
  · intro hfail
    have hany : ((o.custom_fields.getD []).any fun f => f.type == ch) = false := by
      rcases hfail with he | ha
      · cases hcf : (o.custom_fields.getD []) with
        | nil => simp [hcf]
        | cons a l => rw [hcf] at he; simp at he
      · exact ha
    have hcheck : forceChannelCheck (forceFlag o ch) (o.custom_fields.getD []) ch =
        some (channelMsg ch) := by
      cases he : (o.custom_fields.getD []).isEmpty
      · simp [forceChannelCheck, hflag, hany, he]
      · simp [forceChannelCheck, hflag, he]
    cases hv : (validateVerification o).2 with
    | some msg => exact ⟨msg, createVerification_of_validate_some hv net⟩
    | none =>
      exfalso
      rw [validate_snd_eq_firstErr, firstErr_eq_none_iff] at hv
      have hmem : forceChannelCheck (forceFlag o ch) (o.custom_fields.getD []) ch ∈
          checksInOrder o := by
        simp only [checksInOrder, List.mem_append, List.mem_cons, List.mem_map]
        exact Or.inr ⟨ch, hch, rfl⟩
      have h0 := hv _ hmem
      rw [hcheck] at h0
      cases h0
  · intro hany
    have hne : (o.custom_fields.getD []).isEmpty = false := by
      cases hcf : (o.custom_fields.getD []) with
      | nil => simp [hcf] at hany
      | cons a l => simp [hcf]
    simp [forceChannelCheck, hflag, hany, hne]

/-- Claim C5 witness: forcing email verification with no custom fields is
rejected; with a `type: email` custom field the email check passes. -/
theorem c5_force_channels_witness :
    (∃ m, createVerification
        { id := "w5", service_name := "svc", chain := "ETH", folder_id := some "f",
          force_email_verification := some true } (.ok "r") = CVOutcome.validationError m) ∧
    forceChannelCheck
        (forceFlag { id := "w5b", service_name := "svc", chain := "ETH",
                     folder_id := some "f", custom_fields := some [{ type := "email" }],
                     force_email_verification := some true } "email")
        (({ id := "w5b", service_name := "svc", chain := "ETH",
            folder_id := some "f", custom_fields := some [{ type := "email" }],
            force_email_verification := some true } :
          VerificationOptions).custom_fields.getD []) "email" = none :=
  ⟨(c5_force_channels
      { id := "w5", service_name := "svc", chain := "ETH",
        folder_id := some "f", force_email_verification := some true } (.ok "r") "email"
      (by decide) (by decide)).1 (Or.inl (by decide)),
   (c5_force_channels
      { id := "w5b", service_name := "svc", chain := "ETH",
        folder_id := some "f", custom_fields := some [{ type := "email" }],
        force_email_verification := some true } (.ok "r") "email"
      (by decide) (by decide)).2 (by decide)⟩

/-- Claim C6: once validation passes, a POST to `/new` failing with HTTP 409
is surfaced as the duplicate-id error with the exact fixed message, while
every other failure — a response with any other status, or a network error
without a response — is re-raised unchanged. -/
theorem c6_duplicate_id (o : VerificationOptions)
    (hv : (validateVerification o).2 = none) :
    (∀ d, createVerification o (.err (.withResponse 409 d)) =
      .duplicateIdError "ID for the verification already exists. Choose another ID.") ∧
    (∀ s d, s ≠ 409 → createVerification o (.err (.withResponse s d)) =
      .rethrown (.withResponse s d)) ∧
    (∀ m, createVerification o (.err (.noResponse m)) = .rethrown (.noResponse m)) := by
  refine ⟨fun d => ?_, fun s d hs => ?_, fun m => ?_⟩
  · simp [createVerification, hv, duplicateIdMsg]
  · simp [createVerification, hv, hs]
  · simp [createVerification, hv]

/-- Claim C6 witness: on a concrete valid request, a 409 yields the
duplicate-id error, a 500 and a response-less failure are re-raised. -/
theorem c6_duplicate_id_witness :
    createVerification
        { id := "w6", service_name := "svc", chain := "ETH",
          folder_id := some "f" } (.err (.withResponse 409 "conflict")) =
      CVOutcome.duplicateIdError "ID for the verification already exists. Choose another ID." ∧
    createVerification
        { id := "w6", service_name := "svc", chain := "ETH",
          folder_id := some "f" } (.err (.withResponse 500 "boom")) =
      CVOutcome.rethrown (.withResponse 500 "boom") ∧
    createVerification
        { id := "w6", service_name := "svc", chain := "ETH",
          folder_id := some "f" } (.err (.noResponse "timeout")) =
      CVOutcome.rethrown (.noResponse "timeout") :=
  ⟨(c6_duplicate_id
      { id := "w6", service_name := "svc", chain := "ETH",
        folder_id := some "f" } (by decide)).1 "conflict",
   (c6_duplicate_id
      { id := "w6", service_name := "svc", chain := "ETH",
        folder_id := some "f" } (by decide)).2.1 500 "boom" (by decide),
   (c6_duplicate_id
      { id := "w6", service_name := "svc", chain := "ETH",
        folder_id := some "f" } (by decide)).2.2 "timeout"⟩

/-- Claim C7, counterexample to the claim as stated: on an options object
leaving `one_time` unset, the transmitted payload nevertheless contains the
key `one_time`, with the defaulted value `false` — destructuring defaults
are applied before the `undefined`-stripping, so defaulted fields are never
absent. -/
theorem c7_unset_stripped_counterexample :
    ({ id := "v7", service_name := "svc", chain := "ETH",
        folder_id := some "f" } : VerificationOptions).one_time = none ∧
    List.lookup "one_time"
        (payload { id := "v7", service_name := "svc", chain := "ETH",
                   folder_id := some "f" }) = some (JValue.bool false) := by
  exact ⟨rfl, by decide⟩

/-- Claim C7 (amended): every optional field without a destructuring default
(`internal_id`, `webhook`, `expiration`, `secret`, `redirect_url`,
`folder_id`, `token_address`, `token_amount`) that the caller leaves unset
is entirely absent from the transmitted payload — no key at all, not a null
value.  Fields with destructuring defaults are always present instead. -/
theorem c7_unset_fields_absent (o : VerificationOptions) :
    (o.internal_id = none → "internal_id" ∉ (payload o).map Prod.fst) ∧
    (o.webhook = none → "webhook" ∉ (payload o).map Prod.fst) ∧
    (o.expiration = none → "expiration" ∉ (payload o).map Prod.fst) ∧
    (o.secret = none → "secret" ∉ (payload o).map Prod.fst) ∧
    (o.redirect_url = none → "redirect_url" ∉ (payload o).map Prod.fst) ∧
    (o.folder_id = none → "folder_id" ∉ (payload o).map Prod.fst) ∧
    (o.token_address = none → "token_address" ∉ (payload o).map Prod.fst) ∧
    (o.token_amount = none → "token_amount" ∉ (payload o).map Prod.fst) := by
  refine ⟨fun h => ?_, fun h => ?_, fun h => ?_, fun h => ?_,
    fun h => ?_, fun h => ?_, fun h => ?_, fun h => ?_⟩ <;>
    simp [payload, stripUndefined, buildData, List.mem_filter, List.mem_map, h,
      optStr, optNum, formatExpiration]

/-- Claim C7 witness: the amended theorem at a concrete options object with
`webhook` unset — the payload has no `webhook` key. -/
theorem c7_unset_fields_absent_witness :
    "webhook" ∉ (payload { id := "w7", service_name := "svc", chain := "ETH",
                           folder_id := some "f" }).map Prod.fst :=
  (c7_unset_fields_absent
    { id := "w7", service_name := "svc", chain := "ETH", folder_id := some "f" }).2.1 rfl

/-- Claim C8: `expiration` given as a native date value is transmitted as
its ISO-8601 rendering (`toISOString`); given as a string it is passed
through unchanged; left absent, the payload carries no `expiration` key. -/
theorem c8_expiration_normalisation (o : VerificationOptions) :
    (∀ d, o.expiration = some (.date d) →
      List.lookup "expiration" (payload o) = some (.str d.toISOString)) ∧
    (∀ s, o.expiration = some (.str s) →
      List.lookup "expiration" (payload o) = some (.str s)) ∧
    (o.expiration = none → "expiration" ∉ (payload o).map Prod.fst) := by
  refine ⟨fun d h => ?_, fun s h => ?_, fun h => ?_⟩
  · cases hu : o.internal_id <;> cases hv : o.webhook <;>
      simp [payload, stripUndefined, buildData, h, hu, hv, formatExpiration, optStr,
        List.lookup]
  · cases hu : o.internal_id <;> cases hv : o.webhook <;>
      simp [payload, stripUndefined, buildData, h, hu, hv, formatExpiration, optStr,
        List.lookup]
  · simp [payload, stripUndefined, buildData, h, formatExpiration, List.mem_filter,
      List.mem_map]

/-- Claim C8 witness: a concrete date value is transmitted as its ISO-8601
string. -/
theorem c8_expiration_normalisation_witness :
    List.lookup "expiration"
        (payload { id := "w8", service_name := "svc", chain := "ETH",
                   folder_id := some "f",
                   expiration := some (.date ⟨"2025-01-01T00:00:00.000Z"⟩) }) =
      some (.str (JSDate.mk "2025-01-01T00:00:00.000Z").toISOString) :=
  (c8_expiration_normalisation
    { id := "w8", service_name := "svc", chain := "ETH", folder_id := some "f",
      expiration := some (.date ⟨"2025-01-01T00:00:00.000Z"⟩) }).1
    ⟨"2025-01-01T00:00:00.000Z"⟩ rfl

/-- Claim C9, counterexample to the claim as stated: an API key IS supplied
as the constructor argument — the empty string — and no environment fallback
exists, yet construction fails: the constructor tests JS truthiness, not
presence, so an empty-string key falls through to the ConfigurationError. -/
theorem c9_empty_key_counterexample :
    (some "").isSome = true ∧ resolveApiKey (some "") none = .error apiKeyMsg := by
  exact ⟨rfl, rfl⟩

/-- Claim C9 (amended): construction fails with the ConfigurationError
exactly when neither the argument nor the environment variable supplies a
non-empty (JS-truthy) API key; `resolveApiKey` is a total function of its
two inputs, so the failure is synchronous and no request is involved.  A
non-empty key from either route makes construction succeed, the argument
taking precedence. -/
theorem c9_api_key_resolution (arg envKey : Option String) :
    (truthyOptStr arg = false → truthyOptStr envKey = false →
      resolveApiKey arg envKey = .error apiKeyMsg) ∧
    (truthyOptStr arg = true → resolveApiKey arg envKey = .ok (arg.getD "")) ∧
    (truthyOptStr arg = false → truthyOptStr envKey = true →
      resolveApiKey arg envKey = .ok (envKey.getD "")) := by
  refine ⟨fun h1 h2 => ?_, fun h1 => ?_, fun h1 h2 => ?_⟩ <;>
    simp [resolveApiKey, *]

/-- Claim C9 witness: the three resolution outcomes at concrete keys. -/
theorem c9_api_key_resolution_witness :
    resolveApiKey none none = .error apiKeyMsg ∧
    resolveApiKey (some "key-123") none = .ok "key-123" ∧
    resolveApiKey none (some "env-key") = .ok "env-key" :=
  ⟨(c9_api_key_resolution none none).1 rfl rfl,
   (c9_api_key_resolution (some "key-123") none).2.1 (by decide),
   (c9_api_key_resolution none (some "env-key")).2.2 rfl (by decide)⟩

/-- Claim C10: every transmitted payload contains the keys `id`,
`service_name`, `chain`, `one_time`, `custom_fields`, `token_gate`,
`is_nft` and the five `force_<channel>_verification` flags, carrying the
destructuring defaults (`false`, `[]`) whenever the caller left them unset:
the defaulted falsy values are transmitted, never stripped as unset. -/
theorem c10_defaulted_keys_present (o : VerificationOptions) :
    ("id", JValue.str o.id) ∈ payload o ∧
    ("service_name", JValue.str o.service_name) ∈ payload o ∧
    ("chain", JValue.str o.chain) ∈ payload o ∧
    ("one_time", JValue.bool (o.one_time.getD false)) ∈ payload o ∧
    ("custom_fields", JValue.fields (o.custom_fields.getD [])) ∈ payload o ∧
    ("token_gate", JValue.bool (o.token_gate.getD false)) ∈ payload o ∧
    ("is_nft", JValue.bool (o.is_nft.getD false)) ∈ payload o ∧
    ("force_email_verification",
      JValue.bool (o.force_email_verification.getD false)) ∈ payload o ∧
    ("force_telegram_verification",
      JValue.bool (o.force_telegram_verification.getD false)) ∈ payload o ∧
    ("force_twitter_verification",
      JValue.bool (o.force_twitter_verification.getD false)) ∈ payload o ∧
    ("force_telephone_verification",
      JValue.bool (o.force_telephone_verification.getD false)) ∈ payload o ∧
    ("force_discord_verification",
      JValue.bool (o.force_discord_verification.getD false)) ∈ payload o := by
  refine ⟨?_, ?_, ?_, ?_, ?_, ?_, ?_, ?_, ?_, ?_, ?_, ?_⟩ <;>
    simp [payload, stripUndefined, buildData, List.mem_filter]
